import Mathlib

/-!
Verification of the FPRModeller calculation engine.

The numeric model is exact rational arithmetic (ℚ) standing in for Python
floats: every formula below is transcribed from the repository sources
(src/main.py, src/testing.py, src/pay_erosion_calculator.py) with the same
structure, branch conditions and constants.

The repository contains two engine snapshots: src/main.py (the current
application) and src/testing.py (an older snapshot). Where they diverge the
definitions carry the file of origin in their comment.
-/

/- ------------------------------------------------------------------ -/
/- Tax / NI calculator (identical in src/main.py lines 64-104 and
   src/testing.py lines 38-74).  Branch bodies are split into named band
   functions so that continuity at the band boundaries can be stated; each
   band body is the verbatim formula of the corresponding source branch. -/

-- src/main.py line 64: pension cost is 23.7% of basic pay
def calculate_pension_contribution (basic_pay : ℚ) : ℚ :=
  basic_pay * 0.237

def income_tax_band0 (_income : ℚ) : ℚ := 0
def income_tax_band1 (income : ℚ) : ℚ := (income - 12570) * 0.2
def income_tax_band2 (income : ℚ) : ℚ :=
  (50270 - 12570) * 0.2 + (income - 50270) * 0.4
def income_tax_band3 (income : ℚ) : ℚ :=
  (50270 - 12570) * 0.2 + (125140 - 50270) * 0.4 + (income - 125140) * 0.45

-- src/main.py lines 68-79
def calculate_income_tax (income : ℚ) : ℚ :=
  if income ≤ 12570 then income_tax_band0 income
  else if income ≤ 50270 then income_tax_band1 income
  else if income ≤ 125140 then income_tax_band2 income
  else income_tax_band3 income

/- Employee NI works on the weekly equivalent income / 52; the band
   functions below take the weekly income as argument. -/
def ni_band0 (_weekly : ℚ) : ℚ := 0
def ni_band1 (weekly : ℚ) : ℚ := (weekly - 242) * 0.08 * 52
def ni_band2 (weekly : ℚ) : ℚ :=
  (967 - 242) * 0.08 * 52 + (weekly - 967) * 0.02 * 52

-- src/main.py lines 81-90 (weekly_income = income / 52 inlined)
def calculate_national_insurance (income : ℚ) : ℚ :=
  if income / 52 ≤ 242 then ni_band0 (income / 52)
  else if income / 52 ≤ 967 then ni_band1 (income / 52)
  else ni_band2 (income / 52)

def employer_ni_band0 (_weekly : ℚ) : ℚ := 0
def employer_ni_band1 (weekly : ℚ) : ℚ := (weekly - 175) * 0.138 * 52
def employer_ni_band2 (weekly : ℚ) : ℚ :=
  (481 - 175) * 0.138 * 52 + (weekly - 481) * 0.138 * 52
def employer_ni_band3 (weekly : ℚ) : ℚ :=
  (481 - 175) * 0.138 * 52 + (967 - 481) * 0.138 * 52 + (weekly - 967) * 0.138 * 52

-- src/main.py lines 92-104 (weekly_income = income / 52 inlined)
def calculate_employer_ni (income : ℚ) : ℚ :=
  if income / 52 ≤ 175 then employer_ni_band0 (income / 52)
  else if income / 52 ≤ 481 then employer_ni_band1 (income / 52)
  else if income / 52 ≤ 967 then employer_ni_band2 (income / 52)
  else employer_ni_band3 (income / 52)

/- ------------------------------------------------------------------ -/
/- Weighted-average helper (src/main.py lines 187-190).  The two dicts are
   modelled as association lists; headcounts are the nonnegative integers
   the number inputs of the app produce.  Looking a name up in the counts
   map mirrors doctor_counts[name]; in the app both maps share the same
   five nodal keys, so the lookup always succeeds and the 0 default of
   getD is never used. -/
def calculate_weighted_average (percentages : List (String × ℚ))
    (doctor_counts : List (String × ℕ)) : ℚ :=
  let total_doctors : ℕ := (doctor_counts.map (fun p => p.2)).sum
  let weighted_sum : ℚ :=
    (percentages.map
      (fun p => p.2 * (((doctor_counts.lookup p.1).getD 0 : ℕ) : ℚ))).sum
  if 0 < total_doctors then weighted_sum / (total_doctors : ℚ) else 0

/- ------------------------------------------------------------------ -/
/- FPR target calculator (src/main.py lines 113-185).  A historical record
   keeps the year label, the pay award (None for the three most recent
   years, filled in before use) and the three inflation measures. -/

structure PayDataRecord where
  year : String
  pay_award : Option ℚ
  rpi : ℚ
  cpi : ℚ
  cpih : ℚ
deriving DecidableEq

-- src/main.py lines 23-45
def nodal_specific_pay_awards_2023_2024 : List (String × ℚ) :=
  [("Nodal 1", 0.1401), ("Nodal 2", 0.1341), ("Nodal 3", 0.1415),
   ("Nodal 4", 0.1221), ("Nodal 5", 0.1181)]

def nodal_specific_pay_awards_2024_2025 : List (String × ℚ) :=
  [("Nodal 1", 0.0900), ("Nodal 2", 0.0860), ("Nodal 3", 0.0820),
   ("Nodal 4", 0.0770), ("Nodal 5", 0.0750)]

def nodal_specific_pay_awards_2025_2026 : List (String × ℚ) :=
  [("Nodal 1", 0.06049268079), ("Nodal 2", 0.05786992953),
   ("Nodal 3", 0.05504017311), ("Nodal 4", 0.05213101496),
   ("Nodal 5", 0.05064962726)]

-- src/main.py lines 115-134
def pay_data : List PayDataRecord :=
  [⟨"2008/2009", some 0.0, 0.0, 0.0, 0.0⟩,  -- baseline year
   ⟨"2009/2010", some 0.015, 0.053, 0.037, 0.027⟩,
   ⟨"2010/2011", some 0.010, 0.052, 0.045, 0.038⟩,
   ⟨"2011/2012", some 0.000, 0.035, 0.030, 0.028⟩,
   ⟨"2012/2013", some 0.000, 0.029, 0.024, 0.022⟩,
   ⟨"2013/2014", some 0.010, 0.025, 0.018, 0.017⟩,
   ⟨"2014/2015", some 0.000, 0.009, -0.001, 0.003⟩,
   ⟨"2015/2016", some 0.000, 0.013, 0.003, 0.007⟩,
   ⟨"2016/2017", some 0.010, 0.035, 0.027, 0.026⟩,
   ⟨"2017/2018", some 0.010, 0.034, 0.024, 0.022⟩,
   ⟨"2018/2019", some 0.020, 0.030, 0.021, 0.020⟩,
   ⟨"2019/2020", some 0.023, 0.015, 0.008, 0.009⟩,
   ⟨"2020/2021", some 0.030, 0.029, 0.015, 0.016⟩,
   ⟨"2021/2022", some 0.030, 0.111, 0.090, 0.078⟩,
   ⟨"2022/2023", some 0.030, 0.114, 0.087, 0.078⟩,
   ⟨"2023/2024", none, 0.033, 0.023, 0.030⟩,  -- nodal-specific award
   ⟨"2024/2025", none, 0.045, 0.035, 0.041⟩,  -- nodal-specific award
   ⟨"2025/2026", none, 0.045, 0.035, 0.041⟩]

/- src/main.py lines 136-153: fill in the pay award of the three most
   recent years, from the nodal-specific table (with the published fallback
   averages of the get defaults) when a nodal point is supplied, otherwise
   from the published averages. -/
def set_nodal_award (nodal_point : Option String) (d : PayDataRecord) :
    PayDataRecord :=
  match nodal_point with
  | some name =>
    if d.year == "2023/2024" then
      { d with pay_award := some ((nodal_specific_pay_awards_2023_2024.lookup name).getD 0.0371) }
    else if d.year == "2024/2025" then
      { d with pay_award := some ((nodal_specific_pay_awards_2024_2025.lookup name).getD 0.0820) }
    else if d.year == "2025/2026" then
      { d with pay_award := some ((nodal_specific_pay_awards_2025_2026.lookup name).getD 0.0560) }
    else d
  | none =>
    if d.year == "2023/2024" then { d with pay_award := some 0.0400 }
    else if d.year == "2024/2025" then { d with pay_award := some 0.0820 }
    else if d.year == "2025/2026" then { d with pay_award := some 0.0560 }
    else d

-- src/main.py lines 159-164: select the inflation measure column
def inflation_value (inflation_type : String) (d : PayDataRecord) : ℚ :=
  if inflation_type = "RPI" then d.rpi
  else if inflation_type = "CPI" then d.cpi
  else d.cpih  -- CPIH

/- src/main.py lines 155-156 and the slice pay_data[start_index:end_index]
   of line 166: next(..., 0) and next(..., len(pay_data)) become findIdx?
   with the same defaults. -/
def fpr_slice (start_year end_year : String) (nodal_point : Option String) :
    List PayDataRecord :=
  let data := pay_data.map (set_nodal_award nodal_point)
  let start_index := (data.findIdx? (fun d => d.year == start_year)).getD 0
  let end_index := (data.findIdx? (fun d => d.year == end_year)).getD data.length
  (data.drop start_index).take (end_index - start_index)

/- src/main.py lines 157-185.  After set_nodal_award every record of the
   table carries a pay award, so getD 0 never supplies its default; the
   source branch substituting user-projected inflation for a None value
   (lines 170-177) is dead because every inflation cell of the table is a
   number, and the skip test collapses to comparing with zero. -/
def calculate_fpr_percentage (start_year end_year inflation_type : String)
    (nodal_point : Option String) : ℚ :=
  (1 / ((fpr_slice start_year end_year nodal_point).foldl
      (fun cumulative_effect d =>
        if inflation_value inflation_type d = 0 then cumulative_effect
        else cumulative_effect *
          (1 + ((1 + d.pay_award.getD 0) / (1 + inflation_value inflation_type d) - 1)))
      1) - 1) * 100

/- ------------------------------------------------------------------ -/
/- Yearly progression engine, per band (src/main.py
   calculate_nodal_point_results, lines 616-771).  A YearInput is the
   per-band slice of one entry of year_inputs: the percentage pay rise
   nodal_percentages[name], the consolidated pound increase
   pound_increases[name], and the projected inflation rate. -/

structure YearInput where
  percentage : ℚ
  pound : ℚ
  inflation : ℚ
deriving DecidableEq

def zero_year_input : YearInput := ⟨0, 0, 0⟩

/- src/main.py lines 670-675: years after year 0 rise on top of the
   previous nominal pay, with the inflation rate added to the percentage. -/
def pay_progression_nominal_tail (prev : ℚ) : List YearInput → List ℚ
  | [] => []
  | yi :: rest =>
    let percentage_increase := yi.percentage + yi.inflation
    let new_nominal_pay := prev * (1 + percentage_increase) + yi.pound
    new_nominal_pay :: pay_progression_nominal_tail new_nominal_pay rest

/- src/main.py lines 632 and 644-675: the nominal pay history starts at the
   2024/25 base pay; year 0 applies the input percentage plus the pound
   increase as a fraction of base pay. -/
def pay_progression_nominal (base_pay : ℚ) : List YearInput → List ℚ
  | [] => [base_pay]
  | yi :: rest =>
    let total_pay_rise := yi.percentage + yi.pound / base_pay
    let new_nominal_pay := base_pay * (1 + total_pay_rise)
    base_pay :: new_nominal_pay :: pay_progression_nominal_tail new_nominal_pay rest

/- src/main.py lines 705-721: the per-year pay erosion is recomputed from
   the total nominal rise since the 2024/25 baseline, not carried forward
   from the previous year. -/
def current_pay_cut (fpr_percentage inflation_rate total_nominal_rise_given : ℚ) : ℚ :=
  let fpr_target_decimal := fpr_percentage / 100
  let adjusted_fpr_target := (1 + fpr_target_decimal) * (1 + inflation_rate) - 1
  if 0 < adjusted_fpr_target then
    fpr_target_decimal - ((1 + total_nominal_rise_given) / (1 + inflation_rate) - 1)
  else 0

-- src/main.py lines 634 and 723-725
def real_terms_pay_cuts (base_pay fpr_percentage : ℚ)
    (year_inputs : List YearInput) : List ℚ :=
  -fpr_percentage / 100 ::
    (((pay_progression_nominal base_pay year_inputs).drop 1).zip year_inputs).map
      (fun p => current_pay_cut fpr_percentage p.2.inflation (p.1 / base_pay - 1))

-- src/main.py lines 727-743
def current_progress (fpr_percentage inflation_rate total_nominal_rise_given : ℚ) : ℚ :=
  let fpr_target_decimal := fpr_percentage / 100
  let adjusted_fpr_target := (1 + fpr_target_decimal) * (1 + inflation_rate) - 1
  if 0 < adjusted_fpr_target then
    total_nominal_rise_given / adjusted_fpr_target * 100
  else 100

-- src/main.py lines 635 and 743
def fpr_progress (base_pay fpr_percentage : ℚ)
    (year_inputs : List YearInput) : List ℚ :=
  0 :: (((pay_progression_nominal base_pay year_inputs).drop 1).zip year_inputs).map
      (fun p => current_progress fpr_percentage p.2.inflation (p.1 / base_pay - 1))

/- src/main.py lines 664 and 685: the per-year basic pay cost compares the
   new nominal pay with the reference it is costed against, which is the
   2024/25 base pay in year 0 (line 661) and the previous nominal pay in
   later years (line 682); since the pay history starts at base pay the
   reference is always the preceding entry of the history. -/
def yearly_basic_costs_tail (doctor_count prev : ℚ) : List ℚ → List ℚ
  | [] => []
  | n :: rest => (n - prev) * doctor_count :: yearly_basic_costs_tail doctor_count n rest

def yearly_basic_costs (base_pay doctor_count : ℚ)
    (year_inputs : List YearInput) : List ℚ :=
  yearly_basic_costs_tail doctor_count base_pay
    ((pay_progression_nominal base_pay year_inputs).drop 1)

/- src/main.py lines 603 and 611-612: calculate_results starts from
   cumulative_costs = [0] * (len(year_inputs) + 1) and adds every band's
   yearly cost list into it entrywise. -/
def add_costs_into : List ℚ → List ℚ → List ℚ
  | acc, [] => acc
  | [], _ :: _ => []
  | a :: acc, c :: cs => (a + c) :: add_costs_into acc cs

def cumulative_costs (band_yearly_costs : List (List ℚ)) (num_years : ℕ) : List ℚ :=
  band_yearly_costs.foldl add_costs_into (List.replicate (num_years + 1) 0)

/- ------------------------------------------------------------------ -/
/- Erosion engine of the older snapshot (src/testing.py lines 77-81 and
   394-409).  calculate_fpr_and_erosion walks consecutive pairs of the
   nominal pay history together with the year's inflation; a step is the
   triple (previous nominal pay, new nominal pay, inflation rate). -/

-- src/testing.py lines 77-78 (identical to src/main.py lines 107-108)
def calculate_real_terms_change (pay_rise inflation : ℚ) : ℚ :=
  (1 + pay_rise) / (1 + inflation) - 1

-- src/testing.py lines 80-81 (identical to src/main.py lines 110-111)
def calculate_new_pay_erosion (current_erosion real_terms_change : ℚ) : ℚ :=
  (1 + current_erosion) * (1 + real_terms_change) - 1

-- src/testing.py lines 394-409: the returned list carries the running
-- erosion, starting from -fpr_percentage / 100
def testing_real_terms_pay_cuts (erosion : ℚ) : List (ℚ × ℚ × ℚ) → List ℚ
  | [] => [erosion]
  | step :: rest =>
    let total_pay_rise := (step.2.1 - step.1) / step.1
    let new_erosion := calculate_new_pay_erosion erosion
      (calculate_real_terms_change total_pay_rise step.2.2)
    erosion :: testing_real_terms_pay_cuts new_erosion rest

/- ------------------------------------------------------------------ -/
/- Theorems -/

/-- Claim C8: because calculate_pension_contribution is linear, the two
pension-cost policies of spec section 4.5 coincide: the difference of two
pension evaluations scaled by headcount equals the flat 23.7% of the pay
delta scaled by headcount, for every current pay, reference pay and
headcount. -/
theorem C8_pension_policies_coincide
    (current reference headcount : ℚ) :
    (calculate_pension_contribution current
        - calculate_pension_contribution reference) * headcount
      = 0.237 * (current - reference) * headcount := by
  unfold calculate_pension_contribution
  ring

/-- Claim C9 (theorem): for every income at or above zero the implemented
employer-NI function equals the simplified closed form
0.138 * max 0 (income / 52 - 175) * 52: the intermediate weekly boundaries
481 and 967 are redundant because the marginal rate is the flat 0.138 in
every band above the 175 threshold. -/
theorem C9_employer_ni_flat_rate (income : ℚ) (_h : 0 ≤ income) :
    calculate_employer_ni income = 0.138 * max 0 (income / 52 - 175) * 52 := by
  unfold calculate_employer_ni employer_ni_band0 employer_ni_band1
    employer_ni_band2 employer_ni_band3
  split_ifs with h1 h2 h3
  · rw [max_eq_left (by linarith)]
    ring
  · rw [max_eq_right (by linarith)]
    ring
  · rw [max_eq_right (by push_neg at h1; linarith)]
    ring
  · rw [max_eq_right (by push_neg at h1; linarith)]
    ring

/-- Claim C9 witness: the theorem evaluated at the concrete income 52000. -/
theorem C9_employer_ni_flat_rate_witness :
    calculate_employer_ni 52000 = 0.138 * max 0 ((52000 : ℚ) / 52 - 175) * 52 :=
  C9_employer_ni_flat_rate 52000 (by norm_num)

theorem income_tax_monotone {x y : ℚ} (hxy : x ≤ y) :
    calculate_income_tax x ≤ calculate_income_tax y := by
  unfold calculate_income_tax income_tax_band0 income_tax_band1
    income_tax_band2 income_tax_band3
  split_ifs <;> push_neg at * <;> linarith

theorem national_insurance_monotone {x y : ℚ} (hxy : x ≤ y) :
    calculate_national_insurance x ≤ calculate_national_insurance y := by
  have hw : x / 52 ≤ y / 52 := by linarith
  unfold calculate_national_insurance ni_band0 ni_band1 ni_band2
  split_ifs <;> push_neg at * <;> linarith

theorem employer_ni_monotone {x y : ℚ} (hxy : x ≤ y) :
    calculate_employer_ni x ≤ calculate_employer_ni y := by
  have hw : x / 52 ≤ y / 52 := by linarith
  unfold calculate_employer_ni employer_ni_band0 employer_ni_band1
    employer_ni_band2 employer_ni_band3
  split_ifs <;> push_neg at * <;> linarith

/-- Claim C5: the four tax/NI/pension functions are monotone non-decreasing
on incomes at or above zero, and the piecewise branches agree at every band
boundary: 12570, 50270 and 125140 (annual) for income tax, the weekly
thresholds 242 and 967 for employee NI, and the weekly thresholds 175, 481
and 967 for employer NI. -/
theorem C5_tax_ni_monotone_continuous :
    (∀ x y : ℚ, 0 ≤ x → x ≤ y →
      calculate_pension_contribution x ≤ calculate_pension_contribution y
      ∧ calculate_income_tax x ≤ calculate_income_tax y
      ∧ calculate_national_insurance x ≤ calculate_national_insurance y
      ∧ calculate_employer_ni x ≤ calculate_employer_ni y)
    ∧ income_tax_band0 12570 = income_tax_band1 12570
    ∧ income_tax_band1 50270 = income_tax_band2 50270
    ∧ income_tax_band2 125140 = income_tax_band3 125140
    ∧ ni_band0 242 = ni_band1 242
    ∧ ni_band1 967 = ni_band2 967
    ∧ employer_ni_band0 175 = employer_ni_band1 175
    ∧ employer_ni_band1 481 = employer_ni_band2 481
    ∧ employer_ni_band2 967 = employer_ni_band3 967 := by
  refine ⟨fun x y _hx hxy => ⟨?_, income_tax_monotone hxy,
    national_insurance_monotone hxy, employer_ni_monotone hxy⟩, ?_⟩
  · unfold calculate_pension_contribution
    linarith
  · unfold income_tax_band0 income_tax_band1 income_tax_band2 income_tax_band3
      ni_band0 ni_band1 ni_band2 employer_ni_band0 employer_ni_band1
      employer_ni_band2 employer_ni_band3
    norm_num

/-- Claim C5 witness: the monotonicity part instantiated at the concrete
incomes 30000 and 60000. -/
theorem C5_tax_ni_monotone_continuous_witness :
    calculate_pension_contribution 30000 ≤ calculate_pension_contribution 60000
    ∧ calculate_income_tax 30000 ≤ calculate_income_tax 60000
    ∧ calculate_national_insurance 30000 ≤ calculate_national_insurance 60000
    ∧ calculate_employer_ni 30000 ≤ calculate_employer_ni 60000 :=
  C5_tax_ni_monotone_continuous.1 30000 60000 (by norm_num) (by norm_num)

/-- Claim C6 counterexample: at the concrete negative income -1000 every
tax/NI function returns the numeric value 0, produced by the first branch of
the source; no InvalidIncome failure path exists anywhere in the code, so no
negative income makes the functions fail. -/
theorem C6_counterexample_negative_income_accepted :
    calculate_income_tax (-1000) = 0
    ∧ calculate_national_insurance (-1000) = 0
    ∧ calculate_employer_ni (-1000) = 0 := by
  unfold calculate_income_tax calculate_national_insurance calculate_employer_ni
    income_tax_band0 ni_band0 employer_ni_band0
  norm_num

/-- Claim C6 amended: for every negative income each of the three tax/NI
functions falls into its first branch and returns the number 0; the code has
no InvalidIncome error. -/
theorem C6_amended_negative_income_returns_zero (income : ℚ)
    (h : income < 0) :
    calculate_income_tax income = 0
    ∧ calculate_national_insurance income = 0
    ∧ calculate_employer_ni income = 0 := by
  have hw : income / 52 < 0 := div_neg_of_neg_of_pos h (by norm_num)
  unfold calculate_income_tax calculate_national_insurance calculate_employer_ni
  rw [if_pos (by linarith), if_pos (by linarith), if_pos (by linarith)]
  exact ⟨rfl, rfl, rfl⟩

/-- Claim C6 amended witness: the amended theorem evaluated at the concrete
negative income -52. -/
theorem C6_amended_negative_income_returns_zero_witness :
    calculate_income_tax (-52) = 0
    ∧ calculate_national_insurance (-52) = 0
    ∧ calculate_employer_ni (-52) = 0 :=
  C6_amended_negative_income_returns_zero (-52) (by norm_num)

/-- Claim C10: the weighted-average helper is total.  When the total doctor
count is zero it returns 0 instead of dividing by zero; otherwise its result
times the total count equals the headcount-weighted sum of the percentages,
i.e. it returns the weighted mean. -/
theorem C10_weighted_average_total (percentages : List (String × ℚ))
    (doctor_counts : List (String × ℕ)) :
    ((doctor_counts.map (fun p => p.2)).sum = 0 →
      calculate_weighted_average percentages doctor_counts = 0)
    ∧ ((doctor_counts.map (fun p => p.2)).sum ≠ 0 →
      calculate_weighted_average percentages doctor_counts
          * (((doctor_counts.map (fun p => p.2)).sum : ℕ) : ℚ)
        = (percentages.map
            (fun p => p.2 * (((doctor_counts.lookup p.1).getD 0 : ℕ) : ℚ))).sum) := by
  unfold calculate_weighted_average
  constructor
  · intro h
    rw [h]
    norm_num
  · intro h
    rw [if_pos (Nat.pos_of_ne_zero h)]
    exact div_mul_cancel₀ _ (Nat.cast_ne_zero.mpr h)

/-- Claim C10 witness: the nonzero-total branch of the theorem evaluated on
a concrete one-entry percentages map and a two-entry counts map. -/
theorem C10_weighted_average_total_witness :
    ([(("Nodal 1", 3) : String × ℕ), ("Nodal 2", 1)].map (fun p => p.2)).sum ≠ 0
    ∧ calculate_weighted_average [("Nodal 1", 1/10)] [("Nodal 1", 3), ("Nodal 2", 1)]
          * ((([(("Nodal 1", 3) : String × ℕ), ("Nodal 2", 1)].map (fun p => p.2)).sum : ℕ) : ℚ)
        = ([(("Nodal 1", (1 : ℚ)/10))].map
            (fun p => p.2 * ((([(("Nodal 1", 3) : String × ℕ), ("Nodal 2", 1)].lookup p.1).getD 0 : ℕ) : ℚ))).sum :=
  ⟨by norm_num, (C10_weighted_average_total [("Nodal 1", 1/10)]
    [("Nodal 1", 3), ("Nodal 2", 1)]).2 (by norm_num)⟩

theorem foldl_skip_eq_mul_prod {α : Type} (p : α → Prop) [DecidablePred p]
    (g : α → ℚ) :
    ∀ (l : List α) (init : ℚ),
      l.foldl (fun c d => if p d then c else c * g d) init
        = init * ((l.filter (fun d => decide (¬ p d))).map g).prod := by
  intro l
  induction l with
  | nil => intro init; simp
  | cons d l ih =>
    intro init
    by_cases h : p d
    · simp only [List.foldl_cons, if_pos h, List.filter_cons, h,
        decide_not, decide_eq_true_eq]
      simp [h, ih]
    · simp only [List.foldl_cons, if_neg h, List.filter_cons]
      simp only [decide_not]
      simp [h, ih, mul_assoc]

/-- Claim C1: for every FPR window, inflation measure and optional nodal
point, calculate_fpr_percentage maintains a cumulative effect that starts at
1, skips exactly the records of the chronological slice whose selected
inflation value is zero, multiplies by (1 + ((1+award)/(1+inflation) - 1))
= (1+award)/(1+inflation) for each remaining record, and returns
(1/cumulativeEffect - 1) * 100. -/
theorem C1_fpr_target_formula (start_year end_year inflation_type : String)
    (nodal_point : Option String) :
    calculate_fpr_percentage start_year end_year inflation_type nodal_point
      = (1 / (((fpr_slice start_year end_year nodal_point).filter
            (fun d => decide (¬ inflation_value inflation_type d = 0))).map
            (fun d => (1 + d.pay_award.getD 0) / (1 + inflation_value inflation_type d))).prod
          - 1) * 100 := by
  unfold calculate_fpr_percentage
  have hbody : (fun (cumulative_effect : ℚ) (d : PayDataRecord) =>
      if inflation_value inflation_type d = 0 then cumulative_effect
      else cumulative_effect *
        (1 + ((1 + d.pay_award.getD 0) / (1 + inflation_value inflation_type d) - 1)))
    = (fun (c : ℚ) (d : PayDataRecord) =>
      if inflation_value inflation_type d = 0 then c
      else c * ((1 + d.pay_award.getD 0) / (1 + inflation_value inflation_type d))) := by
    funext c d
    by_cases h : inflation_value inflation_type d = 0
    · simp [h]
    · simp only [if_neg h]
      ring
  rw [hbody,
    foldl_skip_eq_mul_prod (fun d => inflation_value inflation_type d = 0)
      (fun d => (1 + d.pay_award.getD 0) / (1 + inflation_value inflation_type d))
      (fpr_slice start_year end_year nodal_point) 1,
    one_mul]

theorem yearly_basic_costs_tail_sum (doctor_count : ℚ) :
    ∀ (noms : List ℚ) (prev : ℚ),
      (yearly_basic_costs_tail doctor_count prev noms).sum
        = (noms.getLastD prev - prev) * doctor_count := by
  intro noms
  induction noms with
  | nil =>
    intro prev
    simp [yearly_basic_costs_tail]
  | cons n rest ih =>
    intro prev
    simp only [yearly_basic_costs_tail, List.sum_cons, ih n, List.getLastD_cons]
    ring

theorem getLastD_pay_progression_drop_one (base_pay : ℚ)
    (year_inputs : List YearInput) :
    ((pay_progression_nominal base_pay year_inputs).drop 1).getLastD base_pay
      = (pay_progression_nominal base_pay year_inputs).getLastD base_pay := by
  cases year_inputs <;> simp [pay_progression_nominal, List.getLastD_cons]

theorem add_costs_into_get? :
    ∀ (acc costs : List ℚ) (j : ℕ),
      (add_costs_into acc costs)[j]?
        = (acc[j]?).map (fun a => a + ((costs[j]?).getD 0)) := by
  intro acc
  induction acc with
  | nil =>
    intro costs j
    cases costs <;> simp [add_costs_into]
  | cons a acc ih =>
    intro costs j
    cases costs with
    | nil =>
      cases h : ((a :: acc) : List ℚ)[j]? <;> simp [add_costs_into, h]
    | cons c cs =>
      cases j with
      | zero => simp [add_costs_into]
      | succ j => simp [add_costs_into, ih]

theorem foldl_add_costs_into_get? :
    ∀ (band_yearly_costs : List (List ℚ)) (acc : List ℚ) (j : ℕ),
      (band_yearly_costs.foldl add_costs_into acc)[j]?
        = (acc[j]?).map
            (fun a => a + (band_yearly_costs.map (fun l => ((l[j]?).getD 0))).sum) := by
  intro band_yearly_costs
  induction band_yearly_costs with
  | nil =>
    intro acc j
    cases h : acc[j]? <;> simp [h]
  | cons l rest ih =>
    intro acc j
    simp only [List.foldl_cons, ih, add_costs_into_get?]
    cases h : acc[j]? <;> simp [h, add_assoc]

theorem replicate_zero_get? :
    ∀ (n j : ℕ), j < n → (List.replicate n (0 : ℚ))[j]? = some 0 := by
  intro n
  induction n with
  | zero =>
    intro j hj
    exact absurd hj (Nat.not_lt_zero j)
  | succ n ih =>
    intro j hj
    cases j with
    | zero => simp [List.replicate_succ]
    | succ j => simpa [List.replicate_succ] using ih j (Nat.lt_of_succ_lt_succ hj)

/-- Claim C3: first, for every band the per-year basic pay deltas (each new
nominal pay minus the reference pay it is costed against) sum, after
headcount scaling, to (finalNominalPay - basePay) * headcount, since the
year-0 reference is the base pay and every later reference is the previous
nominal pay; second, every entry of the aggregate cumulative_costs vector of
calculate_results equals the sum over bands of that year's cost. -/
theorem C3_cost_sum_invariants :
    (∀ (base_pay doctor_count : ℚ) (year_inputs : List YearInput),
      (yearly_basic_costs base_pay doctor_count year_inputs).sum
        = ((pay_progression_nominal base_pay year_inputs).getLastD base_pay
            - base_pay) * doctor_count)
    ∧ (∀ (band_yearly_costs : List (List ℚ)) (num_years j : ℕ),
      j < num_years + 1 →
      (cumulative_costs band_yearly_costs num_years)[j]?
        = some ((band_yearly_costs.map (fun l => ((l[j]?).getD 0))).sum)) := by
  constructor
  · intro base_pay doctor_count year_inputs
    unfold yearly_basic_costs
    rw [yearly_basic_costs_tail_sum, getLastD_pay_progression_drop_one]
  · intro band_yearly_costs num_years j hj
    unfold cumulative_costs
    rw [foldl_add_costs_into_get?, replicate_zero_get? (num_years + 1) j hj]
    simp

/-- Claim C3 witness: the aggregation part of the theorem evaluated on two
concrete two-year band cost lists at year index 0. -/
theorem C3_cost_sum_invariants_witness :
    (0 : ℕ) < 1 + 1
    ∧ (cumulative_costs [[1, 2], [3, 4]] 1)[0]?
        = some ((([[1, 2], [3, 4]] : List (List ℚ)).map
            (fun l => ((l[0]?).getD 0))).sum) :=
  ⟨by norm_num, C3_cost_sum_invariants.2 [[1, 2], [3, 4]] 1 0 (by norm_num)⟩

theorem testing_real_terms_pay_cuts_head (erosion : ℚ)
    (steps : List (ℚ × ℚ × ℚ)) :
    (testing_real_terms_pay_cuts erosion steps)[0]? = some erosion := by
  cases steps <;> simp [testing_real_terms_pay_cuts]

theorem testing_real_terms_pay_cuts_compound :
    ∀ (steps : List (ℚ × ℚ × ℚ)) (erosion : ℚ) (i : ℕ) (st : ℚ × ℚ × ℚ),
      steps[i]? = some st →
      (testing_real_terms_pay_cuts erosion steps)[i + 1]?
        = some (calculate_new_pay_erosion
            (((testing_real_terms_pay_cuts erosion steps)[i]?).getD 0)
            (calculate_real_terms_change ((st.2.1 - st.1) / st.1) st.2.2)) := by
  intro steps
  induction steps with
  | nil =>
    intro erosion i st h
    simp at h
  | cons st0 rest ih =>
    intro erosion i st h
    cases i with
    | zero =>
      simp only [List.getElem?_cons_zero, Option.some.injEq] at h
      subst h
      simp [testing_real_terms_pay_cuts, testing_real_terms_pay_cuts_head]
    | succ i =>
      simp only [List.getElem?_cons_succ] at h
      simpa [testing_real_terms_pay_cuts] using ih _ i st h

/-- Claim C2 counterexample: with base pay 100, FPR target 10% and a single
all-zero simulated year, the erosion list of the main.py engine is
[-1/10, 1/10]: the year-0 entry is 1/10, while the multiplicative
compounding formula (1 + previousErosion) * (1 + realTermsChange) - 1 with
previousErosion = -1/10 and realTermsChange = 0 gives -1/10, so the engine
does not compound erosion multiplicatively. -/
theorem C2_counterexample_main_erosion_not_compounding :
    real_terms_pay_cuts 100 10 [zero_year_input] = [-(1 / 10), 1 / 10]
    ∧ calculate_new_pay_erosion (-(1 / 10)) (calculate_real_terms_change 0 0)
        = -(1 / 10)
    ∧ ((1 : ℚ) / 10) ≠ -(1 / 10) := by
  refine ⟨?_, ?_, by norm_num⟩
  · unfold real_terms_pay_cuts pay_progression_nominal
      pay_progression_nominal_tail current_pay_cut zero_year_input
    norm_num
  · unfold calculate_new_pay_erosion calculate_real_terms_change
    norm_num

/-- Claim C2 amended: the multiplicative compounding
newErosion = (1 + previousErosion) * (1 + realTermsChange) - 1, with
realTermsChange = (1 + totalPayRise) / (1 + inflationRate) - 1, holds for
every year of testing.py's calculate_fpr_and_erosion; main.py's engine
instead recomputes each year's erosion from the total nominal rise since
the 2024/25 baseline as fprTarget/100 - ((1 + totalRise)/(1 + inflation) - 1)
whenever the inflation-adjusted target is positive, which violates the
compounding identity. -/
theorem C2_amended_erosion_compounding :
    (∀ (erosion : ℚ) (steps : List (ℚ × ℚ × ℚ)) (i : ℕ) (st : ℚ × ℚ × ℚ),
      steps[i]? = some st →
      (testing_real_terms_pay_cuts erosion steps)[i + 1]?
        = some (calculate_new_pay_erosion
            (((testing_real_terms_pay_cuts erosion steps)[i]?).getD 0)
            (calculate_real_terms_change ((st.2.1 - st.1) / st.1) st.2.2)))
    ∧ (∀ (fpr_percentage inflation_rate total_nominal_rise_given : ℚ),
      0 < (1 + fpr_percentage / 100) * (1 + inflation_rate) - 1 →
      current_pay_cut fpr_percentage inflation_rate total_nominal_rise_given
        = fpr_percentage / 100
          - ((1 + total_nominal_rise_given) / (1 + inflation_rate) - 1)) := by
  constructor
  · intro erosion steps i st h
    exact testing_real_terms_pay_cuts_compound steps erosion i st h
  · intro fpr_percentage inflation_rate total_nominal_rise_given h
    unfold current_pay_cut
    rw [if_pos h]

/-- Claim C2 amended witness: the compounding identity evaluated on the
concrete step (100, 105, 1/20) from erosion -1/10, and the main.py erosion
formula evaluated at target 10%, inflation 0 and rise 0. -/
theorem C2_amended_erosion_compounding_witness :
    ([((100 : ℚ), (105 : ℚ), (1 : ℚ) / 20)][0]? = some (100, 105, 1 / 20))
    ∧ (testing_real_terms_pay_cuts (-(1 / 10)) [(100, 105, 1 / 20)])[1]?
        = some (calculate_new_pay_erosion
            (((testing_real_terms_pay_cuts (-(1 / 10)) [(100, 105, 1 / 20)])[0]?).getD 0)
            (calculate_real_terms_change ((105 - 100) / 100) (1 / 20)))
    ∧ current_pay_cut 10 0 0 = 10 / 100 - ((1 + 0) / (1 + 0) - 1) :=
  ⟨rfl,
   C2_amended_erosion_compounding.1 (-(1 / 10)) [(100, 105, 1 / 20)] 0
     (100, 105, 1 / 20) rfl,
   C2_amended_erosion_compounding.2 10 0 0 (by norm_num)⟩

/-- Claim C4 counterexample: with base pay 100, fprTarget = 0 and one
simulated year of 5% rise under 2% inflation, the main.py engine evaluates
the progress division (the adjusted target (1+0/100)(1+0.02)-1 = 0.02 is
positive) and reports 250, which is neither the sentinel 100 nor a
DegenerateTarget failure — no failure path exists in the code. -/
theorem C4_counterexample_zero_target_division_evaluated :
    fpr_progress 100 0 [⟨1 / 20, 0, 1 / 50⟩] = [0, 250]
    ∧ ((250 : ℚ) ≠ 100) := by
  constructor
  · unfold fpr_progress pay_progression_nominal pay_progression_nominal_tail
      current_progress
    norm_num
  · norm_num

/-- Claim C4 amended: when fprTarget = 0 the adjusted target of the main.py
engine reduces to the inflation rate; if the inflation rate is not positive
the engine returns the sentinel 100 without evaluating any division
(regardless of the sign of the erosion, and it never fails with a
DegenerateTarget error, which does not exist in the code); if the inflation
rate is positive the division is evaluated with the nonzero divisor equal
to the inflation rate, so no division by zero occurs either way. -/
theorem C4_amended_zero_target_progress (inflation_rate total_nominal_rise_given : ℚ) :
    (inflation_rate ≤ 0 →
      current_progress 0 inflation_rate total_nominal_rise_given = 100)
    ∧ (0 < inflation_rate →
      current_progress 0 inflation_rate total_nominal_rise_given
        = total_nominal_rise_given / inflation_rate * 100) := by
  have hadj : (1 + (0 : ℚ) / 100) * (1 + inflation_rate) - 1 = inflation_rate := by
    ring
  constructor
  · intro h
    simp only [current_progress]
    rw [hadj, if_neg (not_lt.mpr h)]
  · intro h
    simp only [current_progress]
    rw [hadj, if_pos h]

/-- Claim C4 amended witness: the sentinel branch of the theorem evaluated
at zero inflation and rise 5. -/
theorem C4_amended_zero_target_progress_witness :
    (0 : ℚ) ≤ 0 ∧ current_progress 0 0 5 = 100 :=
  ⟨le_refl 0, (C4_amended_zero_target_progress 0 5).1 (le_refl 0)⟩

theorem pay_progression_nominal_tail_zero (prev : ℚ) :
    ∀ k : ℕ, pay_progression_nominal_tail prev (List.replicate k zero_year_input)
      = List.replicate k prev := by
  intro k
  induction k generalizing prev with
  | zero => simp [pay_progression_nominal_tail]
  | succ k ih =>
    have hstep : prev * (1 + (zero_year_input.percentage + zero_year_input.inflation))
        + zero_year_input.pound = prev := by
      unfold zero_year_input
      ring
    simp only [List.replicate_succ, pay_progression_nominal_tail, hstep, ih]

theorem pay_progression_nominal_zero (base_pay : ℚ) :
    ∀ n : ℕ, pay_progression_nominal base_pay (List.replicate n zero_year_input)
      = List.replicate (n + 1) base_pay := by
  intro n
  cases n with
  | zero => simp [pay_progression_nominal]
  | succ k =>
    have hstep : base_pay * (1 + (zero_year_input.percentage
        + zero_year_input.pound / base_pay)) = base_pay := by
      unfold zero_year_input
      norm_num
    simp only [List.replicate_succ, pay_progression_nominal, hstep,
      pay_progression_nominal_tail_zero]

theorem zip_replicate_pair {α β : Type} (x : α) (y : β) :
    ∀ n : ℕ, (List.replicate n x).zip (List.replicate n y)
      = List.replicate n (x, y) := by
  intro n
  induction n with
  | zero => simp
  | succ n ih => simp [List.replicate_succ, ih]

theorem current_pay_cut_zero_zero (fpr_percentage : ℚ)
    (hfpr : 0 < fpr_percentage) :
    current_pay_cut fpr_percentage 0 0 = fpr_percentage / 100 := by
  unfold current_pay_cut
  rw [if_pos]
  · norm_num
  · have h : (1 + fpr_percentage / 100) * (1 + (0 : ℚ)) - 1
        = fpr_percentage / 100 := by ring
    rw [h]
    positivity

theorem testing_real_terms_pay_cuts_constant (base_pay : ℚ) :
    ∀ (n : ℕ) (erosion : ℚ),
      testing_real_terms_pay_cuts erosion (List.replicate n (base_pay, base_pay, 0))
        = List.replicate (n + 1) erosion := by
  intro n
  induction n with
  | zero =>
    intro erosion
    simp [testing_real_terms_pay_cuts]
  | succ n ih =>
    intro erosion
    have hstep : calculate_new_pay_erosion erosion
        (calculate_real_terms_change ((base_pay - base_pay) / base_pay) 0)
        = erosion := by
      unfold calculate_new_pay_erosion calculate_real_terms_change
      norm_num
    simp only [List.replicate_succ, testing_real_terms_pay_cuts, hstep, ih]

/-- Claim C7 counterexample: with base pay 200, FPR target 20% and one
all-zero simulated year, the main.py engine keeps nominal pay at 200 but
reports the year-0 erosion as +1/5, not the initial value -20/100 = -1/5:
the reported erosion is sign-flipped, hence not unchanged. -/
theorem C7_counterexample_zero_run_erosion_flipped :
    real_terms_pay_cuts 200 20 [zero_year_input] = [-(1 / 5), 1 / 5]
    ∧ ((1 : ℚ) / 5) ≠ -(1 / 5) := by
  constructor
  · unfold real_terms_pay_cuts pay_progression_nominal
      pay_progression_nominal_tail current_pay_cut zero_year_input
    norm_num
  · norm_num

/-- Claim C7 amended: in a run whose every year has zero percentage
increase, zero flat increase and zero inflation, nominal pay stays equal to
the base pay after every year, but the erosion reported by the main.py
engine is +fprTarget/100 for every simulated year — the sign-flip of its
initial value -fprTarget/100 — because the engine recomputes erosion from
the baseline instead of carrying it forward; the compounding erosion of
testing.py's calculate_fpr_and_erosion does stay at -fprTarget/100 for all
years. -/
theorem C7_amended_zero_run (base_pay fpr_percentage : ℚ) (n : ℕ)
    (hbase : 0 < base_pay) (hfpr : 0 < fpr_percentage) :
    pay_progression_nominal base_pay (List.replicate n zero_year_input)
      = List.replicate (n + 1) base_pay
    ∧ real_terms_pay_cuts base_pay fpr_percentage (List.replicate n zero_year_input)
      = -fpr_percentage / 100 :: List.replicate n (fpr_percentage / 100)
    ∧ testing_real_terms_pay_cuts (-fpr_percentage / 100)
        (List.replicate n (base_pay, base_pay, 0))
      = List.replicate (n + 1) (-fpr_percentage / 100) := by
  refine ⟨pay_progression_nominal_zero base_pay n, ?_,
    testing_real_terms_pay_cuts_constant base_pay n (-fpr_percentage / 100)⟩
  unfold real_terms_pay_cuts
  rw [pay_progression_nominal_zero base_pay n]
  have hdrop : (List.replicate (n + 1) base_pay).drop 1 = List.replicate n base_pay := by
    simp [List.replicate_succ]
  rw [hdrop, zip_replicate_pair, List.map_replicate]
  have harg : base_pay / base_pay - 1 = 0 := by
    rw [div_self (ne_of_gt hbase)]
    norm_num
  have hcut : current_pay_cut fpr_percentage zero_year_input.inflation
      (base_pay / base_pay - 1) = fpr_percentage / 100 := by
    show current_pay_cut fpr_percentage 0 (base_pay / base_pay - 1)
      = fpr_percentage / 100
    rw [harg]
    exact current_pay_cut_zero_zero fpr_percentage hfpr
  rw [hcut]

/-- Claim C7 amended witness: the theorem evaluated at base pay 100, FPR
target 10% and two all-zero years. -/
theorem C7_amended_zero_run_witness :
    (0 : ℚ) < 100 ∧ (0 : ℚ) < 10
    ∧ pay_progression_nominal 100 (List.replicate 2 zero_year_input)
        = List.replicate 3 100
    ∧ real_terms_pay_cuts 100 10 (List.replicate 2 zero_year_input)
        = -10 / 100 :: List.replicate 2 (10 / 100)
    ∧ testing_real_terms_pay_cuts (-10 / 100) (List.replicate 2 (100, 100, 0))
        = List.replicate 3 (-10 / 100) :=
  ⟨by norm_num, by norm_num,
   (C7_amended_zero_run 100 10 2 (by norm_num) (by norm_num)).1,
   (C7_amended_zero_run 100 10 2 (by norm_num) (by norm_num)).2.1,
   (C7_amended_zero_run 100 10 2 (by norm_num) (by norm_num)).2.2⟩
